import Mathlib

/-!
Verification of the Arc / WeakArc reference-counting smart pointer
(`src/arc.h` of basicfunc/Arc).

Two complementary shallow embeddings of the source are developed:

1. A single-control-block "micro" model (`ArcControlBlock`, `SharedMutex`,
   `arcCopy`, `arcClone`, `get_mut`, `arcRelease`, `weakUpgrade`, ...) that
   transcribes each member function line by line, including the lock
   acquisitions and the order of the atomic operations.  Lock acquisition is
   modelled sequentially: an acquisition that would block returns `none`.

2. A whole-heap sequential state machine (`ArcState`, `stepArc`, `runArc`;
   `WeakState`, `stepWeak`, `runWeak`) in which block and handle identities
   are explicit natural numbers, used to evaluate whole operation
   sequences.  An operation that reaches a lock acquisition that can never
   succeed (the self-deadlocks inside `Arc::operator=`) marks the
   execution stuck: the thread hangs and no later operation runs.
-/

/-- Pointwise update of a function at one key (models a store to one heap
cell). -/
def fupd {α : Type} (f : Nat → α) (k : Nat) (v : α) : Nat → α :=
  fun j => if j = k then v else f j

/-! ## Micro model: one control block, transcribed from src/arc.h -/

/-- Sequential model of `std::shared_mutex`: a count of shared (reader)
holders and an exclusive (writer) flag. -/
structure SharedMutex where
  readers : Nat
  writer : Bool
deriving DecidableEq

/-- Acquiring the shared side (`std::shared_lock`): succeeds when no writer
holds the mutex; with a single sequential thread a failure means the call
would block forever, modelled as `none`. -/
def lockShared (m : SharedMutex) : Option SharedMutex :=
  if m.writer then none else some { m with readers := m.readers + 1 }

/-- Releasing the shared side. -/
def unlockShared (m : SharedMutex) : SharedMutex :=
  { m with readers := m.readers - 1 }

/-- Acquiring the exclusive side (`std::lock_guard` over a `shared_mutex`):
succeeds when neither a writer nor any reader holds the mutex. -/
def lockExclusive (m : SharedMutex) : Option SharedMutex :=
  if m.writer ∨ m.readers ≠ 0 then none else some { m with writer := true }

/-- Releasing the exclusive side. -/
def unlockExclusive (m : SharedMutex) : SharedMutex :=
  { m with writer := false }

/-- State of one `ArcControlBlock` (src/arc.h lines 72-83): the atomic
`ref_count`, the `shared_mutex`, and the address the `shared_ptr data`
holds (`none` models the null pointer).  `blockId` is the identity of the
heap allocation holding the block. -/
structure ArcControlBlock where
  blockId : Nat
  ref_count : Int
  mutex : SharedMutex
  dataPtr : Option Nat
deriving DecidableEq

/-- Transcribes `Arc::Arc(T* ptr)` (src/arc.h line 97) together with the
`ArcControlBlock` constructor (line 82): a freshly allocated block with
`ref_count` 1, a free mutex, and `data` wrapping `ptr` (which may be null). -/
def arcNew (ptr : Option Nat) (freshId : Nat) : ArcControlBlock :=
  { blockId := freshId
    ref_count := 1
    mutex := { readers := 0, writer := false }
    dataPtr := ptr }

/-- Transcribes `Arc::get` (src/arc.h line 148): returns `data.get()`. -/
def arcGet (cb : ArcControlBlock) : Option Nat :=
  cb.dataPtr

/-- Transcribes the copy constructor `Arc::Arc(const Arc&)` (src/arc.h lines
106-108): the new handle stores the same `control_block` pointer and performs
`ref_count.fetch_add(1, relaxed)`.  The returned `Nat` is the block the new
handle points at. -/
def arcCopy (cb : ArcControlBlock) : ArcControlBlock × Nat :=
  ({ cb with ref_count := cb.ref_count + 1 }, cb.blockId)

/-- Transcribes `Arc::clone` (src/arc.h lines 165-168): take a
`shared_lock` on the block mutex, run the copy constructor, release the
lock when the scope ends. -/
def arcClone (cb : ArcControlBlock) : Option (ArcControlBlock × Nat) :=
  (lockShared cb.mutex).map (fun m =>
    let r := arcCopy { cb with mutex := m }
    ({ r.1 with mutex := unlockShared r.1.mutex }, r.2))

/-- Transcribes the free function `get_mut` (src/arc.h lines 214-217): a
`lock_guard` takes the exclusive side of `*arc.mutex()`, `arc.get()` is
evaluated, and the guard releases the lock when `get_mut` returns.  The
result pairs the returned raw pointer with the block state seen by the
caller after the call. -/
def get_mut (cb : ArcControlBlock) : Option (Option Nat × ArcControlBlock) :=
  (lockExclusive cb.mutex).map (fun m =>
    (arcGet cb, { cb with mutex := unlockExclusive m }))

/-- Memory-order annotation carried by an atomic operation of the source. -/
inductive MemOrder
  | relaxed
  | release
  | acquire
deriving DecidableEq

/-- Observable actions performed by `Arc::release` (src/arc.h lines
189-201), in program order. -/
inductive RelAction
  | fetchSub (order : MemOrder) (observed : Int)
  | fence (order : MemOrder)
  | lockExcl
  | recheckLoad (order : MemOrder) (value : Int)
  | resetData
  | freeBlock
deriving DecidableEq

/-- Result of `Arc::release`: either the calling thread blocks forever on the
exclusive lock, or the call finishes with the block in the given state
(`none` meaning `delete control_block` ran). -/
inductive ReleaseResult
  | blocked
  | done (cb : Option ArcControlBlock)
deriving DecidableEq

/-- Transcribes `Arc::release` (src/arc.h lines 189-201).  `recheckVal` is
the value returned by the relaxed reload of `ref_count` performed under the
lock; with no concurrent thread it equals the count left by the decrement,
and it is a parameter precisely because the source re-checks it to guard
against a racing observer.  The returned list records the actions performed,
in order. -/
def arcRelease (maybeCb : Option ArcControlBlock) (recheckVal : Int) :
    ReleaseResult × List RelAction :=
  match maybeCb with
  | none => (.done none, [])
  | some cb =>
      let observed := cb.ref_count
      let cb1 := { cb with ref_count := cb.ref_count - 1 }
      if observed = 1 then
        match lockExclusive cb1.mutex with
        | none => (.blocked, [.fetchSub .release observed, .fence .acquire])
        | some m =>
            if recheckVal = 0 then
              (.done none,
               [.fetchSub .release observed, .fence .acquire, .lockExcl,
                .recheckLoad .relaxed recheckVal, .resetData, .freeBlock])
            else
              (.done (some { cb1 with mutex := unlockExclusive m }),
               [.fetchSub .release observed, .fence .acquire, .lockExcl,
                .recheckLoad .relaxed recheckVal])
      else
        (.done (some cb1), [.fetchSub .release observed])

/-- State of one `WeakArcControlBlock` (src/arc.h lines 235-246): the atomic
`ref_count` and the address observed by the `weak_ptr data`. -/
structure WeakArcControlBlock where
  ref_count : Int
  dataPtr : Option Nat
deriving DecidableEq

/-- Transcribes the `WeakArcControlBlock` constructor (src/arc.h lines
244-245): `ref_count` starts at 1 and `data` observes
`arc.control_block->data`. -/
def mkWeakArcControlBlock (arc : ArcControlBlock) : WeakArcControlBlock :=
  { ref_count := 1, dataPtr := arc.dataPtr }

/-- Transcribes `WeakArc::WeakArc(Arc<T>&)` (src/arc.h line 256): allocate a
fresh `WeakArcControlBlock` from the Arc.  The constructor only reads the
Arc (its `control_block->data`); the pair returns the Arc block state after
the call alongside the new weak block. -/
def weakFromArc (arc : ArcControlBlock) : ArcControlBlock × WeakArcControlBlock :=
  (arc, mkWeakArcControlBlock arc)

/-- Transcribes `WeakArc::upgrade` (src/arc.h lines 303-310).  `origPtr` is
the address observed by the weak block (`arcGet` of the originating Arc);
`expired` states whether the observed `shared_ptr` chain has already been
destroyed, so that `weak_ptr::lock()` yields a null `shared_ptr`; `freshId`
is the address of the `ArcControlBlock` the `Arc` constructor allocates.
Both branches of the source call the `Arc<T>` constructor, so both produce a
newly allocated control block with count 1; no branch throws. -/
def weakUpgrade (origPtr : Option Nat) (expired : Bool) (freshId : Nat) :
    ArcControlBlock :=
  let locked : Option Nat := if expired then none else origPtr
  match locked with
  | some p => arcNew (some p) freshId
  | none => arcNew none freshId

/-- Lock/assign structure of `Arc::operator=` (src/arc.h lines 120-133), as
the ordered list of actions it performs; the arguments are the addresses of
the two `Arc` objects, compared by the source before anything else
(`this != &other`). -/
inductive AssignAction
  | lockBothExclusive
  | releaseOld
  | adoptBlock
  | fetchAddNew
deriving DecidableEq

/-- Action list of `Arc::operator=`: on self-assignment nothing at all runs;
otherwise `std::lock` takes both block mutexes, then release, adopt,
`fetch_add`. -/
def arcAssignActions (selfAddr otherAddr : Nat) : List AssignAction :=
  if selfAddr = otherAddr then []
  else [.lockBothExclusive, .releaseOld, .adoptBlock, .fetchAddNew]

/-! ## Whole-heap machine for Arc

Blocks and Arc objects (handles) are named by natural numbers that are never
reused.  `blocks b = some cnt` means the `ArcControlBlock` at address `b` is
allocated and its `ref_count` is `cnt`; `handles h = some b` means the Arc
object `h` is alive and its `control_block` field points at `b`.  `freed b`
counts how many times `data.reset(); delete control_block` ran on `b`, i.e.
how many times the payload destruction routine was invoked.  `stuck` is set
when the single sequential thread reaches a lock acquisition that can never
succeed; the thread then hangs forever, no later operation of the sequence
runs, and the state is frozen.  Lock/unlock pairs that a completing
operation balances within its own scope are elided (the lock protocol
itself is verified on the micro model above); only acquisitions that
cannot succeed are observable, through `stuck`. -/

structure ArcState where
  nextBlock : Nat
  blocks : Nat → Option Int
  nextHandle : Nat
  handles : Nat → Option Nat
  freed : Nat → Nat
  stuck : Bool

/-- Operations of the Arc public interface, acting on named Arc objects:
`construct` is `Arc(T*)` creating a fresh handle; `copy src` runs the copy
constructor from handle `src` into a fresh handle; `assign dst src` runs
`dst = src` via `operator=`; `destroy h` runs the destructor of handle `h`.
An operation naming a dead or nonexistent handle leaves the state
unchanged. -/
inductive ArcOp
  | construct
  | copy (src : Nat)
  | assign (dst src : Nat)
  | destroy (h : Nat)

/-- Transcribes `Arc::release` (src/arc.h lines 189-201) acting on block
`b`: `fetch_sub(1, release)` returns the prior count; when the prior count
was 1 the thread fences, takes the lock, re-checks that the count (now
`cnt - 1`) is 0 and then resets the data (running the payload deleter) and
deletes the block. -/
def releaseUnit (s : ArcState) (b : Nat) : ArcState :=
  match s.blocks b with
  | none => s
  | some cnt =>
      if cnt = 1 then
        if cnt - 1 = 0 then
          { s with blocks := fupd s.blocks b none
                   freed := fupd s.freed b (s.freed b + 1) }
        else
          { s with blocks := fupd s.blocks b (some (cnt - 1)) }
      else
        { s with blocks := fupd s.blocks b (some (cnt - 1)) }

/-- One operation of the Arc interface.  `construct`: src/arc.h line 97;
`copy`: lines 106-108; `destroy`: line 141 (the destructor holds no lock,
so the acquisition inside `release()` succeeds on the free mutex);
`assign`: lines 120-133 — the self-check, then `std::lock` on both blocks'
mutexes, `release()` of the current block, adoption of the other block,
`fetch_add`.  Two assign configurations can never complete and set `stuck`:
when the two Arc objects share one control block, `std::lock` (line 122) is
passed the same non-recursive mutex twice and never returns; and when the
destination holds the last reference to its block, `release()` first
decrements the count from 1 to 0 (the `fetch_sub` inside the condition,
line 191) and then its `lock_guard` (line 194) re-acquires the mutex
`operator=` already holds exclusively (lines 122-124), hanging before
anything is destroyed. -/
def stepArc (s : ArcState) (op : ArcOp) : ArcState :=
  if s.stuck then s
  else
    match op with
    | .construct =>
        { s with
          nextBlock := s.nextBlock + 1
          blocks := fupd s.blocks s.nextBlock (some 1)
          nextHandle := s.nextHandle + 1
          handles := fupd s.handles s.nextHandle (some s.nextBlock) }
    | .copy src =>
        match s.handles src with
        | none => s
        | some b =>
            { s with
              nextHandle := s.nextHandle + 1
              handles := fupd s.handles s.nextHandle (some b)
              blocks := fupd s.blocks b ((s.blocks b).map (fun c => c + 1)) }
    | .assign dst src =>
        if dst = src then s
        else
          match s.handles dst, s.handles src with
          | some bD, some bS =>
              if bD = bS then
                -- std::lock(m, m) on the shared block's one mutex: hangs
                -- before release(), so no count changes
                { s with stuck := true }
              else
                match s.blocks bD with
                | none => s
                | some cnt =>
                    if cnt = 1 then
                      -- release() decrements 1 → 0, then its lock_guard
                      -- hangs on the mutex operator= already holds: the
                      -- block is neither reset nor freed
                      { s with
                        blocks := fupd s.blocks bD (some (cnt - 1))
                        stuck := true }
                    else
                      { s with
                        blocks := fupd
                          (fupd s.blocks bD (some (cnt - 1))) bS
                          (((fupd s.blocks bD (some (cnt - 1))) bS).map
                            (fun c => c + 1))
                        handles := fupd s.handles dst (some bS) }
          | some _, none => s
          | none, _ => s
    | .destroy h =>
        match s.handles h with
        | none => s
        | some b =>
            let s1 := releaseUnit s b
            { s1 with handles := fupd s1.handles h none }

/-- The empty heap: no blocks, no handles, no destruction has run, not
stuck. -/
def arcInit : ArcState :=
  { nextBlock := 0
    blocks := fun _ => none
    nextHandle := 0
    handles := fun _ => none
    freed := fun _ => 0
    stuck := false }

/-- Run a sequence of interface operations from the empty heap. -/
def runArc (ops : List ArcOp) : ArcState :=
  ops.foldl stepArc arcInit

/-- C1: the claim fails on the code because `Arc::operator=` self-deadlocks
instead of completing the release.  Run `Arc a(p); Arc b(q); a = b` — the
destination holds the last reference to its block: inside `operator=`,
which already holds both mutexes exclusively, `release()` decrements block
0's count from 1 to 0 and then hangs forever re-acquiring the held mutex.
The final state is stuck with the live handle 0 still referencing block 0,
whose strong count is 0 and whose payload destruction routine never ran —
against the claim, a live StrongRef observes `strong_count` 0, and the
payload whose last count unit was released is never destroyed.  Run
`Arc a(p); Arc b = a; a = b` — two handles sharing one block:
`std::lock(m, m)` on the single mutex never returns and nothing is
destroyed there either. -/
theorem arc_assign_deadlock_no_destroy :
    (runArc [.construct, .construct, .assign 0 1]).stuck = true ∧
    (runArc [.construct, .construct, .assign 0 1]).handles 0 = some 0 ∧
    (runArc [.construct, .construct, .assign 0 1]).blocks 0 = some 0 ∧
    (runArc [.construct, .construct, .assign 0 1]).freed 0 = 0 ∧
    (runArc [.construct, .copy 0, .assign 0 1]).stuck = true ∧
    (runArc [.construct, .copy 0, .assign 0 1]).blocks 0 = some 2 ∧
    (runArc [.construct, .copy 0, .assign 0 1]).freed 0 = 0 := by
  refine ⟨?_, ?_, ?_, ?_, ?_, ?_, ?_⟩ <;> decide

/-! ## Whole-heap machine for WeakArc

Same naming scheme as `ArcState`, over `WeakArcControlBlock` allocations.
`strong_count` carries the `ref_count` of the originating Arc control block
alongside the weak state: no member function of `WeakArc` (src/arc.h lines
256-327) ever reads or writes it, which the frame theorem below makes
explicit.  `freed b` counts how many times `delete control_block` ran on
weak block `b`. -/

structure WeakState where
  strong_count : Int
  nextBlock : Nat
  blocks : Nat → Option Int
  nextHandle : Nat
  handles : Nat → Option Nat
  freed : Nat → Nat

/-- Operations of the WeakArc public interface: `construct` is
`WeakArc(Arc<T>&)` creating a fresh handle and weak block; `copy src` the
copy constructor; `assign dst src` runs `dst = src` via `operator=`;
`destroy h` the destructor. -/
inductive WeakOp
  | construct
  | copy (src : Nat)
  | assign (dst src : Nat)
  | destroy (h : Nat)

/-- Transcribes `WeakArc::release` (src/arc.h lines 319-327) on weak block
`b`: `fetch_sub(1, release)` returns the prior count; when it was 1, fence
and `delete control_block` (no lock and no re-check on the weak side). -/
def weakReleaseUnit (s : WeakState) (b : Nat) : WeakState :=
  match s.blocks b with
  | none => s
  | some cnt =>
      if cnt = 1 then
        { s with blocks := fupd s.blocks b none
                 freed := fupd s.freed b (s.freed b + 1) }
      else
        { s with blocks := fupd s.blocks b (some (cnt - 1)) }

/-- One operation of the WeakArc interface.  `construct`: src/arc.h lines
244-245 and 256; `copy`: lines 265-267; `assign`: lines 278-284 — note the
transcription adopts and increments the incoming block but, exactly like the
source, performs no release of the block currently held; `destroy`: line
292. -/
def stepWeak (s : WeakState) (op : WeakOp) : WeakState :=
  match op with
  | .construct =>
      { s with
        nextBlock := s.nextBlock + 1
        blocks := fupd s.blocks s.nextBlock (some 1)
        nextHandle := s.nextHandle + 1
        handles := fupd s.handles s.nextHandle (some s.nextBlock) }
  | .copy src =>
      match s.handles src with
      | none => s
      | some b =>
          { s with
            nextHandle := s.nextHandle + 1
            handles := fupd s.handles s.nextHandle (some b)
            blocks := fupd s.blocks b ((s.blocks b).map (fun c => c + 1)) }
  | .assign dst src =>
      if dst = src then s
      else
        match s.handles dst, s.handles src with
        | some _, some bS =>
            { s with
              handles := fupd s.handles dst (some bS)
              blocks := fupd s.blocks bS ((s.blocks bS).map (fun c => c + 1)) }
        | some _, none => s
        | none, _ => s
  | .destroy h =>
      match s.handles h with
      | none => s
      | some b =>
          let s1 := weakReleaseUnit s b
          { s1 with handles := fupd s1.handles h none }

/-- Initial weak heap derived from one originating Arc control block whose
strong count is `c`. -/
def weakInit (c : Int) : WeakState :=
  { strong_count := c
    nextBlock := 0
    blocks := fun _ => none
    nextHandle := 0
    handles := fun _ => none
    freed := fun _ => 0 }

/-- Run a sequence of WeakArc interface operations. -/
def runWeak (c : Int) (ops : List WeakOp) : WeakState :=
  ops.foldl stepWeak (weakInit c)

theorem stepWeak_strong_count (s : WeakState) (op : WeakOp) :
    (stepWeak s op).strong_count = s.strong_count := by
  cases op with
  | construct => rfl
  | copy src =>
      cases hsrc : s.handles src with
      | none => simp only [stepWeak, hsrc]
      | some b => simp only [stepWeak, hsrc]
  | assign dst src =>
      by_cases hds : dst = src
      · simp only [stepWeak, if_pos hds]
      · cases hdst : s.handles dst with
        | none => simp only [stepWeak, if_neg hds, hdst]
        | some bD =>
            cases hsrc : s.handles src with
            | none => simp only [stepWeak, if_neg hds, hdst, hsrc]
            | some bS => simp only [stepWeak, if_neg hds, hdst, hsrc]
  | destroy h =>
      cases hh : s.handles h with
      | none => simp only [stepWeak, hh]
      | some b =>
          simp only [stepWeak, hh]
          show (weakReleaseUnit s b).strong_count = s.strong_count
          unfold weakReleaseUnit
          cases s.blocks b with
          | none => rfl
          | some cnt =>
              by_cases h1 : cnt = 1 <;> simp [h1]

/-- C8: constructing a WeakArc from an Arc allocates a weak control block
with `weak_count = 1` observing the same payload address, and leaves every
field of the originating Arc control block — in particular its strong
count — unchanged; moreover no WeakArc interface operation ever changes the
originating block's strong count. -/
theorem weak_construct_frame (arc : ArcControlBlock) (c : Int) (ops : List WeakOp) :
    (weakFromArc arc).1 = arc ∧
    (weakFromArc arc).2.ref_count = 1 ∧
    (weakFromArc arc).2.dataPtr = arcGet arc ∧
    (runWeak c ops).strong_count = c := by
  refine ⟨rfl, rfl, rfl, ?_⟩
  have hgen : ∀ (l : List WeakOp) (s : WeakState),
      (List.foldl stepWeak s l).strong_count = s.strong_count := by
    intro l
    induction l with
    | nil => intro s; rfl
    | cons op rest ih =>
        intro s
        rw [List.foldl_cons, ih (stepWeak s op), stepWeak_strong_count]
  exact hgen ops (weakInit c)

/-- C10: self-assignment of a WeakArc (`w = w`, where both sides are the
same object) is detected by the `this != &other` test and changes nothing:
the held block pointer, every weak count, and the whole heap are exactly as
before. -/
theorem weak_self_assign_noop (s : WeakState) (h : Nat) :
    stepWeak s (.assign h h) = s := by
  simp [stepWeak]

/-- Concrete run exhibiting what WeakArc assignment does to the previously
held block: two WeakArcs over distinct blocks, then assign the first from
the second. -/
def weakLeakOps : List WeakOp := [.construct, .construct, .assign 0 1]

/-- C6: after w0 = w1 between two distinct WeakArcs, the incoming block's
count is incremented to 2 and handle 0 has adopted it, but the block w0
held before — contrary to the claim, to the doc comment on the source
operator= (src/arc.h lines 269-277) and to the README — is never
decremented: its count stays 1 and it is never freed (a leak). -/
theorem weak_assign_skips_release :
    (runWeak 1 weakLeakOps).blocks 0 = some 1 ∧
    (runWeak 1 weakLeakOps).blocks 1 = some 2 ∧
    (runWeak 1 weakLeakOps).handles 0 = some 1 ∧
    (runWeak 1 weakLeakOps).handles 1 = some 1 ∧
    (runWeak 1 weakLeakOps).freed 0 = 0 := by
  refine ⟨?_, ?_, ?_, ?_, ?_⟩ <;> decide

/-- C5: self-assignment of an Arc (`a = a`, same object on both sides) is
detected by the `this != &other` test before `std::lock` runs: no action at
all is performed (in particular no lock is taken), and the control block
pointer, its strong count, and the whole heap are unchanged; on the
non-self path the very first action is taking both locks. -/
theorem arc_self_assign_noop (s : ArcState) (h : Nat) (a : Nat) :
    stepArc s (.assign h h) = s ∧
    arcAssignActions a a = [] ∧
    (∀ a1 a2 : Nat, a1 ≠ a2 →
        (arcAssignActions a1 a2).head? = some .lockBothExclusive) := by
  refine ⟨by simp [stepArc], by simp [arcAssignActions], ?_⟩
  intro a1 a2 hne
  simp [arcAssignActions, hne]

/-- Witness for C5: applied to the empty heap, handle 0 and addresses 1, 2. -/
theorem arc_self_assign_noop_witness :
    stepArc arcInit (.assign 0 0) = arcInit ∧
    (arcAssignActions 1 2).head? = some .lockBothExclusive :=
  ⟨(arc_self_assign_noop arcInit 0 0).1,
   (arc_self_assign_noop arcInit 0 0).2.2 1 2 (by decide)⟩

/-- C2: the release protocol.  The decrement is a release-ordered fetch_sub
and is always the first action; exactly when it observes prior count 1 (the
1→0 transition) the thread issues an acquire fence and takes the exclusive
side of the block's lock; the payload reset and the block free happen
exactly when additionally the re-check under the lock reads 0; a decrement
from a higher count only decrements, and a re-check that reads a nonzero
count destroys nothing and leaves the block with count 0. -/
theorem release_protocol (cb : ArcControlBlock) (recheckVal : Int)
    (hm : cb.mutex = { readers := 0, writer := false }) :
    ((arcRelease (some cb) recheckVal).2.head?
        = some (.fetchSub .release cb.ref_count)) ∧
    ((RelAction.fence .acquire ∈ (arcRelease (some cb) recheckVal).2 ∧
      RelAction.lockExcl ∈ (arcRelease (some cb) recheckVal).2) ↔
        cb.ref_count = 1) ∧
    (RelAction.resetData ∈ (arcRelease (some cb) recheckVal).2 ↔
        (cb.ref_count = 1 ∧ recheckVal = 0)) ∧
    (RelAction.freeBlock ∈ (arcRelease (some cb) recheckVal).2 ↔
        (cb.ref_count = 1 ∧ recheckVal = 0)) ∧
    (cb.ref_count = 1 ∧ recheckVal = 0 →
        (arcRelease (some cb) recheckVal).1 = .done none) ∧
    (cb.ref_count ≠ 1 →
        (arcRelease (some cb) recheckVal).1
            = .done (some { cb with ref_count := cb.ref_count - 1 }) ∧
        (arcRelease (some cb) recheckVal).2
            = [.fetchSub .release cb.ref_count]) ∧
    (cb.ref_count = 1 ∧ recheckVal ≠ 0 →
        ∃ cb2, (arcRelease (some cb) recheckVal).1 = .done (some cb2) ∧
          cb2.ref_count = 0 ∧
          RelAction.resetData ∉ (arcRelease (some cb) recheckVal).2) := by
  have hlock : lockExclusive cb.mutex = some { readers := 0, writer := true } := by
    rw [hm]
    rfl
  by_cases hone : cb.ref_count = 1
  · by_cases hrv : recheckVal = 0
    · have hred : arcRelease (some cb) recheckVal
          = (.done none,
             [.fetchSub .release cb.ref_count, .fence .acquire, .lockExcl,
              .recheckLoad .relaxed recheckVal, .resetData, .freeBlock]) := by
        simp only [arcRelease, if_pos hone, hlock, if_pos hrv]
      rw [hred]
      refine ⟨rfl, ?_, ?_, ?_, fun _ => rfl, ?_, ?_⟩
      · simp [hone]
      · simp [hone, hrv]
      · simp [hone, hrv]
      · intro hx
        exact absurd hone hx
      · intro hx
        exact absurd hrv hx.2
    · have hred : arcRelease (some cb) recheckVal
          = (.done (some { cb with
                ref_count := cb.ref_count - 1
                mutex := unlockExclusive { readers := 0, writer := true } }),
             [.fetchSub .release cb.ref_count, .fence .acquire, .lockExcl,
              .recheckLoad .relaxed recheckVal]) := by
        simp only [arcRelease, if_pos hone, hlock, if_neg hrv]
      rw [hred]
      refine ⟨rfl, ?_, ?_, ?_, ?_, ?_, ?_⟩
      · simp [hone]
      · simp [hrv]
      · simp [hrv]
      · intro hx
        exact absurd hx.2 hrv
      · intro hx
        exact absurd hone hx
      · intro _
        refine ⟨{ cb with
            ref_count := cb.ref_count - 1
            mutex := unlockExclusive { readers := 0, writer := true } },
          rfl, by show cb.ref_count - 1 = 0; omega, by simp⟩
  · have hred : arcRelease (some cb) recheckVal
        = (.done (some { cb with ref_count := cb.ref_count - 1 }),
           [.fetchSub .release cb.ref_count]) := by
      simp only [arcRelease, if_neg hone]
    rw [hred]
    refine ⟨rfl, ?_, ?_, ?_, ?_, fun _ => ⟨rfl, rfl⟩, ?_⟩
    · simp [hone]
    · simp [hone]
    · simp [hone]
    · intro hx
      exact absurd hx.1 hone
    · intro hx
      exact absurd hx.1 hone

/-- Witness for C2: a block with count 1 and a free mutex, re-check reading
0: the trace is the full destruction sequence and the block is freed. -/
theorem release_protocol_witness :
    (arcRelease (some (arcNew (some 42) 0)) 0).1 = .done none ∧
    RelAction.resetData ∈ (arcRelease (some (arcNew (some 42) 0)) 0).2 :=
  ⟨(release_protocol (arcNew (some 42) 0) 0 rfl).2.2.2.2.1 ⟨rfl, rfl⟩,
   ((release_protocol (arcNew (some 42) 0) 0 rfl).2.2.1).mpr ⟨rfl, rfl⟩⟩

/-- Control block used for concrete inputs in witnesses and counterexamples:
payload at address 42, strong count 2, free mutex. -/
def cbExample : ArcControlBlock :=
  { blockId := 0
    ref_count := 2
    mutex := { readers := 0, writer := false }
    dataPtr := some 42 }

/-- C4 counterexample: on a block with a free mutex, get_mut returns the
payload pointer together with a block state identical to the input — in
particular the writer flag of the lock is already false again when get_mut
returns, so the exclusive lock is NOT held during the scope in which the
caller uses the yielded pointer; it was released when get_mut itself
returned. -/
theorem get_mut_unlocks_before_return :
    get_mut cbExample = some (some 42, cbExample) ∧
    cbExample.mutex.writer = false := by
  constructor
  · rfl
  · rfl

/-- C4 (amended): get_mut takes the exclusive side of the block's lock,
evaluates arc.get() while holding it, and releases the lock when get_mut
itself returns — before the caller uses the yielded pointer — so the
caller-visible post state has a free lock again; while a writer holds the
lock (i.e. during get_mut's own critical section) no other get_mut and no
clone can enter on that block. -/
theorem get_mut_lock_scope (cb : ArcControlBlock)
    (hfree : cb.mutex = { readers := 0, writer := false }) :
    get_mut cb = some (arcGet cb, cb) ∧
    (∀ cb2 : ArcControlBlock, cb2.mutex.writer = true →
        get_mut cb2 = none ∧ arcClone cb2 = none) := by
  have hcb : ({ cb with mutex := { readers := 0, writer := false } } : ArcControlBlock)
      = cb := by
    rw [← hfree]
  constructor
  · rw [show get_mut cb
        = some (arcGet cb, { cb with mutex := { readers := 0, writer := false } }) from by
      simp only [get_mut, hfree]
      rfl]
    rw [hcb]
  · intro cb2 hw
    constructor
    · simp [get_mut, lockExclusive, hw]
    · simp [arcClone, lockShared, hw]

/-- Witness for C4's amended theorem at the concrete block. -/
theorem get_mut_lock_scope_witness :
    get_mut cbExample = some (some 42, cbExample) ∧
    get_mut { cbExample with mutex := { readers := 0, writer := true } } = none :=
  ⟨(get_mut_lock_scope cbExample rfl).1,
   ((get_mut_lock_scope cbExample rfl).2
      { cbExample with mutex := { readers := 0, writer := true } } rfl).1⟩

/-- C7: clone is observationally a copy.  On a block whose lock has no
writer, clone succeeds and returns exactly the copy constructor's result:
the new handle shares the same control block, the strong count went up by
exactly one, and every other field of the block (payload pointer, lock) is
unchanged.  The only difference is the shared lock held around the copy:
while a writer holds the lock, clone blocks (returns none) whereas the
plain copy constructor takes no lock at all. -/
theorem clone_refines_copy (cb : ArcControlBlock) (hw : cb.mutex.writer = false) :
    arcClone cb = some (arcCopy cb) ∧
    (arcCopy cb).2 = cb.blockId ∧
    (arcCopy cb).1.blockId = cb.blockId ∧
    (arcCopy cb).1.ref_count = cb.ref_count + 1 ∧
    (arcCopy cb).1.dataPtr = cb.dataPtr ∧
    (arcCopy cb).1.mutex = cb.mutex ∧
    (∀ cb2 : ArcControlBlock, cb2.mutex.writer = true → arcClone cb2 = none) := by
  refine ⟨?_, rfl, rfl, rfl, rfl, rfl, ?_⟩
  · simp only [arcClone, lockShared, hw, Bool.false_eq_true, if_false, Option.map_some]
    simp [arcCopy, unlockShared]
    rw [← hw]
  · intro cb2 hw2
    simp [arcClone, lockShared, hw2]

/-- Witness for C7 at the concrete block. -/
theorem clone_refines_copy_witness :
    arcClone cbExample = some (arcCopy cbExample) :=
  (clone_refines_copy cbExample rfl).1

/-- C3: upgrading while the payload is still alive yields an Arc whose
get() equals the original payload pointer but whose control block is the
newly allocated one — strong count 1, identity distinct from the
originating block; upgrading after the payload is gone yields the null
Arc (still a normal value, not an error); both paths return normally. -/
theorem upgrade_behavior (orig : ArcControlBlock) (freshId : Nat)
    (hfresh : freshId ≠ orig.blockId) :
    arcGet (weakUpgrade (arcGet orig) false freshId) = arcGet orig ∧
    (weakUpgrade (arcGet orig) false freshId).ref_count = 1 ∧
    (weakUpgrade (arcGet orig) false freshId).blockId ≠ orig.blockId ∧
    arcGet (weakUpgrade (arcGet orig) true freshId) = none ∧
    (weakUpgrade (arcGet orig) true freshId).ref_count = 1 := by
  refine ⟨?_, ?_, ?_, rfl, rfl⟩
  · cases horig : arcGet orig with
    | none => simp [weakUpgrade, horig, arcNew, arcGet]
    | some p => simp [weakUpgrade, horig, arcNew, arcGet]
  · cases horig : arcGet orig with
    | none => simp [weakUpgrade, horig, arcNew]
    | some p => simp [weakUpgrade, horig, arcNew]
  · cases horig : arcGet orig with
    | none => simpa [weakUpgrade, horig, arcNew] using hfresh
    | some p => simpa [weakUpgrade, horig, arcNew] using hfresh

/-- Witness for C3 at the concrete block and fresh id 1. -/
theorem upgrade_behavior_witness :
    arcGet (weakUpgrade (arcGet cbExample) false 1) = some 42 ∧
    (weakUpgrade (arcGet cbExample) false 1).blockId ≠ cbExample.blockId ∧
    arcGet (weakUpgrade (arcGet cbExample) true 1) = none := by
  have h := upgrade_behavior cbExample 1 (by decide)
  exact ⟨h.1, h.2.2.1, h.2.2.2.1⟩

/-- C9: the null Arc, Arc(nullptr) — also what a failed upgrade returns:
get() yields the null sentinel, and the remaining operations run cleanly
under the normal discipline: copy increments the count on the same block,
clone equals copy, get_mut locks and returns the (null) pointer, and the
destructor's release path frees the block, the payload deleter running on
the null pointer deleting nothing; constructing a WeakArc from it observes
the null pointer. -/
theorem null_arc_behavior (i : Nat) :
    arcGet (arcNew none i) = none ∧
    arcCopy (arcNew none i) = ({ arcNew none i with ref_count := 2 }, i) ∧
    arcClone (arcNew none i) = some (arcCopy (arcNew none i)) ∧
    get_mut (arcNew none i) = some (none, arcNew none i) ∧
    (arcRelease (some (arcNew none i)) 0).1 = .done none ∧
    weakFromArc (arcNew none i)
      = (arcNew none i, { ref_count := 1, dataPtr := none }) := by
  refine ⟨rfl, rfl, ?_, ?_, rfl, rfl⟩
  · simp [arcClone, arcNew, lockShared, unlockShared, arcCopy]
  · simp [get_mut, arcNew, lockExclusive, unlockExclusive, arcGet]
